import Mathlib

/-!
Verification of the action dispatch and validation layer of the unity-mcp
server: the two tool dispatchers `modify_scriptable_object`
(src/UnityMcpServer/src/tools/modify_scriptable_object.py) and
`create_scriptable_object`
(src/UnityMcpServer/src/tools/create_scriptable_object.py).

Each dispatcher validates its arguments, builds a normalized parameter
dictionary, and submits it to the Unity connection via
`connection.send_command(commandName, params)`.  We embed a dispatcher as a
function from its arguments to an `Outcome`: either a locally produced
failure envelope (returned without contacting the transport), or the pair
`(commandName, params)` handed to the transport, whose result is then
returned unchanged.

Python `Optional` arguments are embedded as `Option`; Python string
truthiness (`not s` is true for both `None` and `""`) is `strTruthy`;
Python dictionaries built by successive insertion of distinct keys are
association lists in insertion order.  Floating-point property values are
outside the embedding (no dispatcher decision ever depends on them: the
dispatcher only tests values for presence).
-/

/-- A transport-neutral parameter value, as in the Python annotation
`Union[str, int, float, bool, list, dict]` for `property_value` (floats
omitted, see the file comment).  The dispatcher never inspects a value
beyond comparing it with `None`. -/
inductive Value where
  | str : String → Value
  | int : Int → Value
  | bool : Bool → Value
  | list : List Value → Value
  | dict : List (String × Value) → Value

/-- The uniform result envelope `{"success": …, "message": …, "data": …}`. -/
structure Envelope where
  success : Bool
  message : String
  data : Option Value

/-- What one dispatch call does: either return a locally built failure
envelope without contacting the transport, or invoke the transport
collaborator with `(commandName, params)` and return its result. -/
inductive Outcome where
  | localError : Envelope → Outcome
  | sent : String → List (String × Value) → Outcome

/-- `true` when the dispatch outcome is a local validation failure. -/
def Outcome.isLocalError : Outcome → Bool
  | .localError _ => true
  | .sent _ _ => false

/-- Python truthiness of an optional string: `not s` holds exactly when `s`
is `None` or the empty string. -/
def strTruthy : Option String → Bool
  | none => false
  | some s => !(s == "")

/-- Python `str.lower()`, character by character (the action names the
dispatchers lower-case are ASCII, where Python lowering is exactly
per-character ASCII lowering). -/
def pyLower (s : String) : String := ⟨s.data.map Char.toLower⟩

/-- One optional entry of a parameter dictionary: the Python pattern
`if x is not None: params_dict[key] = x`. -/
def optEntry (key : String) : Option Value → List (String × Value)
  | none => []
  | some v => [(key, v)]

/-- The arguments of `modify_scriptable_object`.  In the Python signature
`asset_path` is a required `str` parameter; it is embedded as an `Option`
so that an absent value (Python `None`) can be distinguished from an empty
string, both of which the code treats as missing. -/
structure ModifyArgs where
  action : String
  asset_path : Option String
  property_name : Option String := none
  property_value : Option Value := none
  property_type : Option String := none
  index : Option Int := none

/-- `property_actions` of modify_scriptable_object.py (line 49). -/
def property_actions : List String :=
  ["get_property", "set_property", "list_array_elements", "inspect_array_detailed",
   "add_array_element", "remove_array_element", "set_array_element"]

/-- `set_actions` of modify_scriptable_object.py (line 53). -/
def set_actions : List String :=
  ["set_property", "add_array_element", "set_array_element"]

/-- `array_element_actions` of modify_scriptable_object.py (line 57). -/
def array_element_actions : List String :=
  ["remove_array_element", "set_array_element"]

/-- The f-string `f"property_name is required for action '{action}'"`. -/
def property_name_msg (action : String) : String :=
  "property_name is required for action '" ++ action ++ "'"

/-- The f-string `f"property_value is required for action '{action}'"`. -/
def property_value_msg (action : String) : String :=
  "property_value is required for action '" ++ action ++ "'"

/-- The f-string `f"index is required for action '{action}'"`. -/
def index_msg (action : String) : String :=
  "index is required for action '" ++ action ++ "'"

/-- The parameter dictionary modify_scriptable_object builds (lines 62-75):
`action` lower-cased and `asset_path` always present, then each optional
field added only when supplied.  (The `asset_path` entry is only ever built
after validation, where `asset_path` is a non-empty `some`; `getD` merely
totalizes the embedding.) -/
def buildModifyParams (a : ModifyArgs) : List (String × Value) :=
  [("action", Value.str (pyLower a.action)),
   ("asset_path", Value.str (a.asset_path.getD ""))]
  ++ optEntry "property_name" (a.property_name.map Value.str)
  ++ optEntry "property_value" a.property_value
  ++ optEntry "property_type" (a.property_type.map Value.str)
  ++ optEntry "index" (a.index.map Value.int)

/-- The body of `modify_scriptable_object` (modify_scriptable_object.py
lines 45-85): the four validation checks in source order, each
short-circuiting with its own failure envelope, then the transport call
`send_command("HandleModifyScriptableObject", params_dict)`. -/
def modify_scriptable_object (a : ModifyArgs) : Outcome :=
  if ¬ strTruthy a.asset_path then
    .localError ⟨false, "asset_path is required", none⟩
  else if a.action ∈ property_actions ∧ ¬ strTruthy a.property_name then
    .localError ⟨false, property_name_msg a.action, none⟩
  else if a.action ∈ set_actions ∧ a.property_value.isNone then
    .localError ⟨false, property_value_msg a.action, none⟩
  else if a.action ∈ array_element_actions ∧ a.index.isNone then
    .localError ⟨false, index_msg a.action, none⟩
  else
    .sent "HandleModifyScriptableObject" (buildModifyParams a)

/-- The arguments of `create_scriptable_object`: all optional except
`action` (all default to `None` in the Python signature). -/
structure CreateArgs where
  action : String
  name : Option String := none
  subfolder : Option String := none
  type_name : Option String := none
  path : Option String := none

/-- The parameter dictionary create_scriptable_object builds (lines 34-48):
`action` lower-cased, then each optional field added only when supplied. -/
def buildCreateParams (a : CreateArgs) : List (String × Value) :=
  [("action", Value.str (pyLower a.action))]
  ++ optEntry "name" (a.name.map Value.str)
  ++ optEntry "subfolder" (a.subfolder.map Value.str)
  ++ optEntry "type_name" (a.type_name.map Value.str)
  ++ optEntry "path" (a.path.map Value.str)

/-- The body of `create_scriptable_object` (create_scriptable_object.py
lines 34-57): no validation at all, just build the parameters and call
`send_command("HandleCreateScriptableObject", params_dict)`. -/
def create_scriptable_object (a : CreateArgs) : Outcome :=
  .sent "HandleCreateScriptableObject" (buildCreateParams a)

/-- Complete a dispatch against a transport collaborator `send`: a local
failure envelope is returned directly; otherwise the transport is invoked
and its result returned unchanged (`result = await …; return result`). -/
def runWith (send : String → List (String × Value) → Envelope) : Outcome → Envelope
  | .localError e => e
  | .sent c p => send c p

/-- `modify_scriptable_object` run to completion against a transport. -/
def run_modify (send : String → List (String × Value) → Envelope)
    (a : ModifyArgs) : Envelope :=
  runWith send (modify_scriptable_object a)

/-- `create_scriptable_object` run to completion against a transport. -/
def run_create (send : String → List (String × Value) → Envelope)
    (a : CreateArgs) : Envelope :=
  runWith send (create_scriptable_object a)

lemma strTruthy_none : strTruthy none = false := rfl

lemma strTruthy_some (s : String) : strTruthy (some s) = !(s == "") := rfl

lemma set_subset_property : ∀ x ∈ set_actions, x ∈ property_actions := by decide

lemma array_subset_property : ∀ x ∈ array_element_actions, x ∈ property_actions := by decide

/-- C1: for every Property Access action that requires `property_name`
(exactly the members of `property_actions`, i.e. every family action except
`get_properties` and `get_info`), a dispatch that passes the `asset_path`
check but has `property_name` absent returns exactly
`{success: false, message: "property_name is required for action '<action>'",
data: null}` locally, never invoking the transport. -/
theorem C1_property_name_required (a : ModifyArgs)
    (h1 : strTruthy a.asset_path = true)
    (h2 : a.action ∈ property_actions)
    (h3 : a.property_name = none) :
    modify_scriptable_object a
      = .localError ⟨false, property_name_msg a.action, none⟩ := by
  simp [modify_scriptable_object, h1, h2, h3, strTruthy_none]

/-- C1 witness: `get_property` with `property_name` absent fails locally
with the exact envelope. -/
theorem C1_witness :
    modify_scriptable_object { action := "get_property", asset_path := some "Assets/a.asset" }
      = .localError ⟨false, "property_name is required for action 'get_property'", none⟩ :=
  C1_property_name_required _ (by decide) (by decide) rfl

/-- C2: whatever the other arguments, a Property Access dispatch whose
`asset_path` is absent or empty returns exactly
`{success: false, message: "asset_path is required", data: null}` with no
transport call; since the conclusion holds for arbitrary remaining fields,
this check fires before any action-specific check. -/
theorem C2_asset_path_required (a : ModifyArgs)
    (h : a.asset_path = none ∨ a.asset_path = some "") :
    modify_scriptable_object a
      = .localError ⟨false, "asset_path is required", none⟩ := by
  rcases h with h | h <;> simp [modify_scriptable_object, h, strTruthy_none, strTruthy_some]

/-- C2 witness: `set_property` with empty `asset_path` and `property_name`
also missing still fails with the `asset_path` message (the family-global
check fires first). -/
theorem C2_witness :
    modify_scriptable_object { action := "set_property", asset_path := some "" }
      = .localError ⟨false, "asset_path is required", none⟩ :=
  C2_asset_path_required _ (Or.inr rfl)

/-- C3: `set_property` with `property_name = "speed"`,
`property_value = 5`, `asset_path = "Assets/Data/X.asset"` and
`property_type`/`index` absent passes validation, and the transport is
invoked with `commandName = "HandleModifyScriptableObject"` and exactly the
four keys `action`, `asset_path`, `property_name`, `property_value` (no
`index` or `property_type` key). -/
theorem C3_set_property_params :
    modify_scriptable_object
      { action := "set_property", asset_path := some "Assets/Data/X.asset",
        property_name := some "speed", property_value := some (Value.int 5) }
      = .sent "HandleModifyScriptableObject"
          [("action", Value.str "set_property"),
           ("asset_path", Value.str "Assets/Data/X.asset"),
           ("property_name", Value.str "speed"),
           ("property_value", Value.int 5)] := rfl

/-- C4 counterexample: the action is NOT lower-cased before the
required-field lookup.  `"Set_Property"` with `property_name` absent passes
validation and is transmitted (lower-cased only inside the params), while
`"set_property"` with the same arguments fails the `property_name` check —
so an action differing only in case is not validated like its lower-case
form, refuting the claim as stated. -/
theorem C4_counterexample :
    modify_scriptable_object { action := "Set_Property", asset_path := some "A" }
      = .sent "HandleModifyScriptableObject"
          [("action", Value.str "set_property"), ("asset_path", Value.str "A")]
    ∧ modify_scriptable_object { action := "set_property", asset_path := some "A" }
      = .localError ⟨false, "property_name is required for action 'set_property'", none⟩ :=
  ⟨rfl, rfl⟩

/-- C4 amended: the dispatcher lower-cases the action only when building
the transmitted parameter set; the required-field lookups use the action
string verbatim, so an action not literally in the lookup lists (e.g. a
case variant of a known action) bypasses every action-specific check and is
transmitted with its lower-cased form as the `action` value. -/
theorem C4_lowercase_only_in_params (a : ModifyArgs)
    (h1 : strTruthy a.asset_path = true)
    (h2 : a.action ∉ property_actions) :
    modify_scriptable_object a
      = .sent "HandleModifyScriptableObject" (buildModifyParams a)
    ∧ (buildModifyParams a).head? = some ("action", Value.str (pyLower a.action)) := by
  have h3 : a.action ∉ set_actions := fun hm => h2 (set_subset_property _ hm)
  have h4 : a.action ∉ array_element_actions := fun hm => h2 (array_subset_property _ hm)
  exact ⟨by simp [modify_scriptable_object, h1, h2, h3, h4], rfl⟩

/-- C4 amended witness: `"Set_Property"` (not in any lookup list) with no
`property_name` is dispatched to the transport, action lower-cased in the
params. -/
theorem C4_witness :
    modify_scriptable_object { action := "Set_Property", asset_path := some "B" }
      = .sent "HandleModifyScriptableObject"
          (buildModifyParams { action := "Set_Property", asset_path := some "B" })
    ∧ (buildModifyParams { action := "Set_Property", asset_path := some "B" }).head?
      = some ("action", Value.str (pyLower "Set_Property")) :=
  C4_lowercase_only_in_params _ (by decide) (by decide)

/-- C5: the action-specific checks cascade in the fixed order
`property_value` then `index`, each short-circuiting with its own message:
a set-family dispatch past the earlier checks with `property_value` absent
fails with the `property_value` message; an array-element dispatch past the
earlier checks with `index` absent fails with the `index` message; in
particular `remove_array_element` with `property_name = "lines"`,
`asset_path = "A"` and no `index` fails with
`"index is required for action 'remove_array_element'"`.  No transport call
happens in any of these cases. -/
theorem C5_value_then_index_cascade :
    (∀ a : ModifyArgs, strTruthy a.asset_path = true →
      strTruthy a.property_name = true → a.action ∈ set_actions →
      a.property_value = none →
      modify_scriptable_object a
        = .localError ⟨false, property_value_msg a.action, none⟩)
    ∧ (∀ a : ModifyArgs, strTruthy a.asset_path = true →
      strTruthy a.property_name = true →
      (a.action ∈ set_actions → a.property_value ≠ none) →
      a.action ∈ array_element_actions → a.index = none →
      modify_scriptable_object a
        = .localError ⟨false, index_msg a.action, none⟩)
    ∧ modify_scriptable_object
        { action := "remove_array_element", asset_path := some "A",
          property_name := some "lines" }
      = .localError ⟨false, "index is required for action 'remove_array_element'", none⟩ := by
  refine ⟨?_, ?_, rfl⟩
  · intro a h1 h2 h3 h4
    have hp : a.action ∈ property_actions := set_subset_property _ h3
    simp [modify_scriptable_object, h1, h2, h3, h4, hp]
  · intro a h1 h2 h3 h4 h5
    have hp : a.action ∈ property_actions := array_subset_property _ h4
    by_cases hset : a.action ∈ set_actions
    · obtain ⟨v, hv⟩ := Option.ne_none_iff_exists'.mp (h3 hset)
      simp [modify_scriptable_object, h1, h2, h4, h5, hp, hv]
    · simp [modify_scriptable_object, h1, h2, h4, h5, hp, hset]

/-- C5 witness: `set_property` with `asset_path` and `property_name`
supplied but no `property_value` fails with the exact message. -/
theorem C5_witness :
    modify_scriptable_object
      { action := "set_property", asset_path := some "A", property_name := some "p" }
      = .localError ⟨false, "property_value is required for action 'set_property'", none⟩ :=
  C5_value_then_index_cascade.1 _ (by decide) (by decide) (by decide) rfl

/-- C6 counterexample: `set_property` with `property_value` supplied as the
empty string is NOT treated as missing: validation passes and the empty
string is transmitted, refuting the claim that every locally required field
supplied-but-empty is treated like an absent one. -/
theorem C6_counterexample :
    modify_scriptable_object
      { action := "set_property", asset_path := some "A",
        property_name := some "p", property_value := some (Value.str "") }
      = .sent "HandleModifyScriptableObject"
          [("action", Value.str "set_property"), ("asset_path", Value.str "A"),
           ("property_name", Value.str "p"), ("property_value", Value.str "")] := rfl

/-- C6 amended: only the string-truthiness checks on `asset_path` and
`property_name` treat a supplied empty string like a missing value;
`property_value` (and `index`) are compared with the `None` sentinel alone,
so any supplied `property_value` — the empty string included — passes
validation and is transmitted. -/
theorem C6_empty_vs_missing :
    (∀ a : ModifyArgs, strTruthy a.asset_path = true →
      a.action ∈ property_actions → a.property_name = some "" →
      modify_scriptable_object a
        = .localError ⟨false, property_name_msg a.action, none⟩)
    ∧ (∀ (a : ModifyArgs) (v : Value), strTruthy a.asset_path = true →
      strTruthy a.property_name = true → a.action ∈ set_actions →
      a.property_value = some v →
      (a.action ∈ array_element_actions → a.index ≠ none) →
      modify_scriptable_object a
        = .sent "HandleModifyScriptableObject" (buildModifyParams a)) := by
  constructor
  · intro a h1 h2 h3
    simp [modify_scriptable_object, h1, h2, h3, strTruthy_some]
  · intro a v h1 h2 h3 h4 h5
    have hp : a.action ∈ property_actions := set_subset_property _ h3
    by_cases harr : a.action ∈ array_element_actions
    · obtain ⟨i, hi⟩ := Option.ne_none_iff_exists'.mp (h5 harr)
      simp [modify_scriptable_object, h1, h2, hp, h4, hi]
    · simp [modify_scriptable_object, h1, h2, hp, h4, harr]

/-- C6 witness: `get_property` with `property_name = ""` fails as missing,
while (per the second conjunct instantiated in `C6_counterexample`'s input)
an empty-string `property_value` does not. -/
theorem C6_witness :
    modify_scriptable_object
      { action := "get_property", asset_path := some "A", property_name := some "" }
      = .localError ⟨false, "property_name is required for action 'get_property'", none⟩ :=
  C6_empty_vs_missing.1 _ (by decide) (by decide) rfl

/-- C7 counterexample: `create_custom` with both `type_name` and `path`
absent does not produce a local failure envelope — the Object Creation
dispatcher contacts the execution target anyway, refuting the claim of a
local type_name/path precondition check. -/
theorem C7_counterexample :
    create_scriptable_object { action := "create_custom" }
      = .sent "HandleCreateScriptableObject" [("action", Value.str "create_custom")]
    ∧ (create_scriptable_object { action := "create_custom" }).isLocalError = false :=
  ⟨rfl, rfl⟩

/-- C7 amended: the Object Creation dispatcher performs no local validation
at all: for every argument combination — `create_custom` with `type_name`
or `path` absent included — it builds the parameter set and submits it to
the execution target; enforcement of `type_name` and `path`, like that of
`name`, is deferred entirely to the execution target. -/
theorem C7_no_local_validation (a : CreateArgs) :
    create_scriptable_object a
      = .sent "HandleCreateScriptableObject" (buildCreateParams a) := rfl

/-- C7 amended witness: a concrete `create_custom` dispatch goes straight
to the transport. -/
theorem C7_witness :
    create_scriptable_object { action := "create_custom", name := some "N" }
      = .sent "HandleCreateScriptableObject"
          (buildCreateParams { action := "create_custom", name := some "N" }) :=
  C7_no_local_validation _

/-- C8: a create-family dispatch (`create_ai_character`,
`create_ai_interaction`, `create_custom`) with `name` absent produces no
local failure: the parameter set is built without a `name` key and handed
to the transport as `HandleCreateScriptableObject`; in particular
`create_custom` with `type_name = "Foo"` and `path = "Assets/Foo.asset"`
sends exactly `{action, type_name, path}` with no `name` or `subfolder`
keys. -/
theorem C8_name_not_locally_required :
    (∀ a : CreateArgs,
      a.action ∈ ["create_ai_character", "create_ai_interaction", "create_custom"] →
      a.name = none →
      create_scriptable_object a
          = .sent "HandleCreateScriptableObject" (buildCreateParams a)
        ∧ "name" ∉ (buildCreateParams a).map Prod.fst)
    ∧ create_scriptable_object
        { action := "create_custom", type_name := some "Foo",
          path := some "Assets/Foo.asset" }
      = .sent "HandleCreateScriptableObject"
          [("action", Value.str "create_custom"), ("type_name", Value.str "Foo"),
           ("path", Value.str "Assets/Foo.asset")] := by
  refine ⟨?_, rfl⟩
  intro a _ hname
  refine ⟨rfl, ?_⟩
  rcases a with ⟨act, nm, sf, tn, ph⟩
  cases hname
  rcases sf with _ | s <;> rcases tn with _ | t <;> rcases ph with _ | p <;>
    simp [buildCreateParams, optEntry]

/-- C8 witness: `create_ai_character` with no `name` is sent, and the
transmitted parameter set has no `name` key. -/
theorem C8_witness :
    create_scriptable_object { action := "create_ai_character" }
        = .sent "HandleCreateScriptableObject"
            (buildCreateParams { action := "create_ai_character" })
      ∧ "name" ∉ (buildCreateParams { action := "create_ai_character" }).map Prod.fst :=
  C8_name_not_locally_required.1 _ (by decide) rfl

/-- C9: in both families a dispatch that passes local validation returns to
the caller exactly the value produced by the transport collaborator's
`send(commandName, params)` call, with no transformation, wrapping, or
retry. -/
theorem C9_result_passthrough :
    (∀ (send : String → List (String × Value) → Envelope) (a : ModifyArgs)
        (c : String) (p : List (String × Value)),
      modify_scriptable_object a = .sent c p → run_modify send a = send c p)
    ∧ (∀ (send : String → List (String × Value) → Envelope) (a : CreateArgs)
        (c : String) (p : List (String × Value)),
      create_scriptable_object a = .sent c p → run_create send a = send c p) := by
  refine ⟨?_, ?_⟩ <;> intro send a c p h <;>
    simp [run_modify, run_create, h, runWith]

/-- C9 witness: a concrete transport double's answer for a validated
`get_info` dispatch comes back to the caller unchanged. -/
theorem C9_witness :
    run_modify (fun c p => ⟨true, c, some (Value.dict p)⟩)
      { action := "get_info", asset_path := some "A" }
      = ⟨true, "HandleModifyScriptableObject",
          some (Value.dict [("action", Value.str "get_info"),
            ("asset_path", Value.str "A")])⟩ :=
  C9_result_passthrough.1 (fun c p => ⟨true, c, some (Value.dict p)⟩)
    { action := "get_info", asset_path := some "A" }
    "HandleModifyScriptableObject"
    [("action", Value.str "get_info"), ("asset_path", Value.str "A")] rfl

/-- C10: for the set-family actions, a `property_value` of boolean `false`
or integer `0` satisfies the `property_value` requirement (the absence
sentinel is `None`, not Python falsiness), and the `property_value` key
with that value appears in the transmitted parameter set. -/
theorem C10_falsy_property_values (a : ModifyArgs) (v : Value)
    (h1 : strTruthy a.asset_path = true)
    (h2 : strTruthy a.property_name = true)
    (h3 : a.action ∈ set_actions)
    (h4 : v = Value.bool false ∨ v = Value.int 0)
    (h5 : a.property_value = some v)
    (h6 : a.action ∈ array_element_actions → a.index ≠ none) :
    modify_scriptable_object a
        = .sent "HandleModifyScriptableObject" (buildModifyParams a)
      ∧ ("property_value", v) ∈ buildModifyParams a := by
  have hp : a.action ∈ property_actions := set_subset_property _ h3
  constructor
  · by_cases harr : a.action ∈ array_element_actions
    · obtain ⟨i, hi⟩ := Option.ne_none_iff_exists'.mp (h6 harr)
      simp [modify_scriptable_object, h1, h2, hp, h5, hi]
    · simp [modify_scriptable_object, h1, h2, hp, h5, harr]
  · simp [buildModifyParams, optEntry, h5]

/-- C10 witness: `set_property` with `property_value = false` passes
validation and transmits the `property_value` key. -/
theorem C10_witness :
    modify_scriptable_object
        { action := "set_property", asset_path := some "A",
          property_name := some "p", property_value := some (Value.bool false) }
        = .sent "HandleModifyScriptableObject"
            (buildModifyParams
              { action := "set_property", asset_path := some "A",
                property_name := some "p", property_value := some (Value.bool false) })
      ∧ ("property_value", Value.bool false)
        ∈ buildModifyParams
            { action := "set_property", asset_path := some "A",
              property_name := some "p", property_value := some (Value.bool false) } :=
  C10_falsy_property_values _ _ (by decide) (by decide) (by decide)
    (Or.inl rfl) rfl (by decide)
